import Mathlib

/-!
# Book store API: the record service over the `books` table

Shallow embedding of `main.go`.

* The table `books` (`CreateTableIfNotExists`) is a list of rows together with
  the next value of the sequence behind `id SERIAL`.  The statements the
  handlers send are functions on that state.  `INSERT` and `UPDATE` enforce
  `PRIMARY KEY` on `id`, `UNIQUE` on `title_name` and the `VARCHAR(255)` type
  of `title_name` and `author_name`; the sequence ends at the last value of
  `integer`; the two queries by id refuse a parameter outside `integer`.
* Every statement also takes a `Fault`, an input that says what the engine does
  to it for reasons neither the rows nor the parameters show: no connection,
  the two second deadline of the request context.  The theorems say which
  faults they allow.
* The route parameter `id` is taken as the integer it denotes.  In the check
  query of `UpdateBook` an id outside `integer` is left to the fault input:
  the handler answers 500 there with or without it.
* A `time.Time` is the calendar day and time of day as written, with the zone
  offset; a `DATE` column keeps the day as written.
* A handler returns the `c.JSON` calls it made, in order, the table after the
  call and the statements it sent.  What gin writes to the connection for
  these calls is not part of the embedding.
* Concurrent `CreateBook` calls are a step relation: a schedule names, step by
  step, the call that sends its next statement; a statement is indivisible.
-/

set_option maxRecDepth 8192

namespace BookStore

/-! ## Data model -/

/-- Value of a `DATE` column: a calendar day. -/
structure Date where
  year : Int
  month : Nat
  day : Nat
deriving DecidableEq, Repr

/-- Value of type `time.Time` as its RFC 3339 text gives it: the calendar day and
the nanoseconds since midnight on the wall clock of the zone, and the offset
of the zone in seconds east of UTC. -/
structure Time where
  date : Date
  nsec : Nat
  offset : Int
deriving DecidableEq, Repr

/-- The zero `time.Time`, January 1 of year 1, 00:00:00 UTC. -/
def zeroTime : Time := ⟨⟨1, 1, 1⟩, 0, 0⟩

/-- The `Book` struct of `main.go`. -/
structure Book where
  Id : Int
  TitleName : String
  AuthorName : String
  PublishedAt : Time
deriving DecidableEq, Repr

/-- The value of `var book Book`. -/
def zeroBook : Book := ⟨0, "", "", zeroTime⟩

/-- One row of the table `books`
(`id SERIAL PRIMARY KEY, title_name .. NOT NULL UNIQUE, author_name .. NOT NULL,
published_at DATE NOT NULL`). -/
structure Row where
  id : Int
  title_name : String
  author_name : String
  published_at : Date
deriving DecidableEq, Repr

/-- The table `books`: its rows and the next value of the sequence behind `id SERIAL`. -/
structure Db where
  rows : List Row
  serial : Int
deriving DecidableEq, Repr

/-- The table right after `CREATE TABLE IF NOT EXISTS books` on a fresh database. -/
def emptyDb : Db := ⟨[], 1⟩

/-- Errors a `database/sql` call hands back to a handler. -/
inductive SqlError
  | errNoRows
  | uniqueViolation
  | other
deriving DecidableEq, Repr

/-- How the engine treats one statement: it answers (`ok`); it answers with an
error without running the statement (`refused`: no connection, the deadline
of the context is already over); it starts the statement and gives it up with
an error before a row is written, an id already drawn from the sequence being
spent (`aborted`); or it runs the statement and the answer does not reach the
handler (`lostReply`: the deadline expires while the reply is on its way). -/
inductive Fault
  | ok
  | refused
  | aborted
  | lostReply
deriving DecidableEq, Repr

/-- The statements of `main.go`, by their query text. -/
inductive Stmt
  | selectExistsTitle
  | insertReturningId
  | selectById
  | selectAll
  | selectExistsTitleOtherId
  | updateReturningId
  | selectExistsId
  | deleteById
deriving DecidableEq, Repr

/-! ## The statements on the table -/

/-- Whether `n` is a value of the type `integer` of the column `id SERIAL`. -/
def int4 (n : Int) : Bool :=
  decide (-2147483648 ≤ n) && decide (n ≤ 2147483647)

/-- Assignment of a string to a `VARCHAR(255)` column: a string of up to 255
characters is stored as it is, a longer one whose characters beyond the
255th are all blanks is cut to 255 characters, any other longer string is
refused (`none`). -/
def varchar255 (s : String) : Option String :=
  if s.length ≤ 255 then some s
  else if (s.data.drop 255).all (fun c => c == ' ') then some ⟨s.data.take 255⟩
  else none

/-- Query `SELECT EXISTS (SELECT 1 FROM books WHERE title_name = $1)`. -/
def Db.titleExists (db : Db) (title : String) : Bool :=
  db.rows.any fun r => r.title_name == title

/-- Query `SELECT EXISTS (SELECT 1 FROM books WHERE title_name = $1 AND id != $2)`. -/
def Db.titleExistsOther (db : Db) (title : String) (id : Int) : Bool :=
  db.rows.any fun r => r.title_name == title && r.id != id

/-- Whether a row carries the id: the rows a condition `id = $k` selects. -/
def Db.hasId (db : Db) (id : Int) : Bool :=
  db.rows.any fun r => r.id == id

/-- Query `SELECT EXISTS (SELECT 1 FROM books WHERE id = $1)`: a parameter
outside `integer` is refused with an error. -/
def Db.idExists (db : Db) (id : Int) : Except SqlError Bool :=
  if int4 id then .ok (db.hasId id) else .error .other

/-- Query `SELECT * FROM books WHERE id = $1;` read with `QueryRow`: the first
matching row, if any; a parameter outside `integer` is refused with an error. -/
def Db.selectById (db : Db) (id : Int) : Except SqlError (Option Row) :=
  if int4 id then .ok (db.rows.find? fun r => r.id == id) else .error .other

/-- Statement `INSERT INTO books (title_name, author_name, published_at) VALUES
($1, $2, $3) RETURNING id`.  A title or author that `VARCHAR(255)` does not
take is refused, and so is the statement once the sequence has run past the
last `integer`.  Otherwise the id is drawn from the sequence, which moves on
even when the row is then refused by `PRIMARY KEY` or by `UNIQUE`; `UNIQUE`
looks at the title as stored. -/
def Db.insert (db : Db) (title author : String) (d : Date) : Except SqlError Int × Db :=
  match varchar255 title, varchar255 author with
  | some t, some a =>
    if !int4 db.serial then (.error .other, db)
    else
      let id := db.serial
      let db1 : Db := { db with serial := db.serial + 1 }
      if db.hasId id then (.error .uniqueViolation, db1)
      else if db.titleExists t then (.error .uniqueViolation, db1)
      else (.ok id, { db1 with rows := db.rows ++ [⟨id, t, a, d⟩] })
  | _, _ => (.error .other, db)

/-- Statement `UPDATE books SET title_name = $1, author_name = $2, published_at = $3
WHERE id = $4 RETURNING id` read with `QueryRow(..).Scan(&updatedID)`: no row
for the id gives `sql.ErrNoRows`, a title or author that `VARCHAR(255)` does
not take is refused, a title held (as stored) by another row is refused by
`UNIQUE`.  The handler sees only `err != nil`, so which error is reported
when several apply does not show; `sql.ErrNoRows` is listed first. -/
def Db.update (db : Db) (title author : String) (d : Date) (id : Int) :
    Except SqlError Int × Db :=
  if !db.hasId id then (.error .errNoRows, db)
  else
    match varchar255 title, varchar255 author with
    | some t, some a =>
      if db.titleExistsOther t id then (.error .uniqueViolation, db)
      else (.ok id, { db with rows := db.rows.map fun r =>
              if r.id == id then ⟨r.id, t, a, d⟩ else r })
    | _, _ => (.error .other, db)

/-- Statement `DELETE FROM books WHERE id = $1`. -/
def Db.delete (db : Db) (id : Int) : Db :=
  { db with rows := db.rows.filter fun r => r.id != id }

/-- A query under a fault: its result, or an error. -/
def runRead {α : Type} (f : Fault) (v : Except SqlError α) : Except SqlError α :=
  match f with
  | .ok => v
  | .refused => .error .other
  | .aborted => .error .other
  | .lostReply => .error .other

/-- A writing statement under a fault: `db` is the table before the statement,
`mid` the table when the statement is given up on the way, `r` its result
and the table after it. -/
def runWrite {α : Type} (f : Fault) (db mid : Db) (r : Except SqlError α × Db) :
    Except SqlError α × Db :=
  match f with
  | .ok => r
  | .refused => (.error .other, db)
  | .aborted => (.error .other, mid)
  | .lostReply => (.error .other, r.2)

/-! ## Requests and responses -/

/-- The body given to `gin.H` in a `c.JSON` call. -/
inductive Body
  | error (msg : String)
  | book (b : Book)
  | books (bs : List Book)
  | updated (msg : String) (updated_id : Int)
  | message (msg : String)
deriving DecidableEq, Repr

/-- One call `c.JSON(status, body)`. -/
structure Resp where
  status : Nat
  body : Body
deriving DecidableEq, Repr

/-- What a handler did: its `c.JSON` calls in order, the table afterwards, and
the statements it sent to the database in order. -/
structure Result where
  out : List Resp
  db : Db
  stmts : List Stmt
deriving DecidableEq, Repr

/-- A JSON object sent as request body; a key that is absent is `none`. -/
structure Payload where
  id : Option Int
  title_name : Option String
  author_name : Option String
  published_at : Option Time
deriving DecidableEq, Repr

/-- The faults met by the first and by the second statement of a handler. -/
structure Env where
  first : Fault
  second : Fault
deriving DecidableEq, Repr

/-- An engine that answers every statement. -/
def Env.ok : Env := ⟨.ok, .ok⟩

/-- Call `c.ShouldBindJSON(&book)`: `none` as body is a body that does not decode
into `Book`; absent keys leave the zero value; then the `binding:"required"`
tags of `TitleName` and `AuthorName` refuse the zero value `""`.
`PublishedAt` carries no `binding` tag. -/
def ShouldBindJSON (body : Option Payload) : Option Book :=
  match body with
  | none => none
  | some p =>
    let book : Book :=
      ⟨p.id.getD 0, p.title_name.getD "", p.author_name.getD "", p.published_at.getD zeroTime⟩
    if book.TitleName = "" ∨ book.AuthorName = "" then none else some book

/-! ## The handlers -/

/-- Step 1 of `CreateBook` (lines 85-97) on a bound `book`: `some r` when the
handler answers `r` and returns, `none` when it goes on to step 2. -/
def createCheck (f : Fault) (db : Db) (book : Book) : Option Resp :=
  match runRead f (.ok (db.titleExists book.TitleName)) with
  | .error _ => some ⟨500, .error "Failed to check title duplication!"⟩
  | .ok found =>
    if found then some ⟨409, .error "Book with the same title already exists!"⟩
    else none

/-- Step 2 of `CreateBook` (lines 99-107): the insert and the answer. -/
def createInsert (f : Fault) (db : Db) (book : Book) : Resp × Db :=
  match runWrite f db { db with serial := db.serial + 1 }
      (db.insert book.TitleName book.AuthorName book.PublishedAt.date) with
  | (.error _, db1) => (⟨500, .error "Failed to create book!"⟩, db1)
  | (.ok id, db1) => (⟨201, .book { book with Id := id }⟩, db1)

/-- Handler `CreateBook`. -/
def CreateBook (env : Env) (db : Db) (body : Option Payload) : Result :=
  match ShouldBindJSON body with
  | none => ⟨[⟨400, .error "Invalid input!"⟩], db, []⟩
  | some book =>
    match createCheck env.first db book with
    | some r => ⟨[r], db, [.selectExistsTitle]⟩
    | none =>
      let (r, db1) := createInsert env.second db book
      ⟨[r], db1, [.selectExistsTitle, .insertReturningId]⟩

/-- Handler `GetBookById`; `id` is the route parameter.  `row.Scan` gives
`sql.ErrNoRows` when the query has no row, and the `DATE` comes back as the
day at midnight UTC. -/
def GetBookById (f : Fault) (db : Db) (id : Int) : Result :=
  match runRead f (db.selectById id) with
  | .error _ => ⟨[⟨500, .error "Failed to get book!"⟩], db, [.selectById]⟩
  | .ok none => ⟨[⟨404, .error "Book not found!"⟩], db, [.selectById]⟩
  | .ok (some r) =>
    ⟨[⟨200, .book ⟨r.id, r.title_name, r.author_name, ⟨r.published_at, 0, 0⟩⟩⟩], db,
      [.selectById]⟩

/-- What the database hands to `GetBooks`: the fault of the query itself, for
each delivered row (by position) the column at which `rows.Scan` fails, if
any, and the number of rows after which the iteration breaks off with
`rows.Err() != nil`, if it does. -/
structure RowsEnv where
  query : Fault
  scanErr : Nat → Option (Fin 4)
  iterErr : Option Nat

/-- An engine that delivers every row. -/
def RowsEnv.ok : RowsEnv := ⟨.ok, fun _ => none, none⟩

/-- Call `rows.Scan(&book.Id, &book.TitleName, &book.AuthorName, &book.PublishedAt)`
into a fresh `var book Book`: the columns are assigned from left to right, and
a failure at one column leaves it and the later fields at their zero value.
The first component is `err != nil`. -/
def scanRow (r : Row) (failAt : Option (Fin 4)) : Bool × Book :=
  match failAt with
  | none => (false, ⟨r.id, r.title_name, r.author_name, ⟨r.published_at, 0, 0⟩⟩)
  | some 0 => (true, zeroBook)
  | some 1 => (true, { zeroBook with Id := r.id })
  | some 2 => (true, { zeroBook with Id := r.id, TitleName := r.title_name })
  | some 3 => (true, { zeroBook with Id := r.id, TitleName := r.title_name,
                                      AuthorName := r.author_name })

/-- The loop `for rows.Next() { .. }` of `GetBooks` from the row at position `i`
on: the `c.JSON` calls made inside the loop and the slice `books` after it. -/
def scanLoop (scanErr : Nat → Option (Fin 4)) : Nat → List Row → List Book →
    List Resp × List Book
  | _, [], books => ([], books)
  | i, r :: rest, books =>
    let (err, book) := scanRow r (scanErr i)
    let out : List Resp := if err then [⟨500, .error "Failed to scan book!"⟩] else []
    let (outs, books1) := scanLoop scanErr (i + 1) rest (books ++ [book])
    (out ++ outs, books1)

/-- Handler `GetBooks`. -/
def GetBooks (env : RowsEnv) (db : Db) : Result :=
  match runRead env.query (.ok db.rows) with
  | .error _ => ⟨[⟨500, .error "Failed to get Books!"⟩], db, [.selectAll]⟩
  | .ok rows =>
    let delivered := match env.iterErr with
      | none => rows
      | some k => rows.take k
    let (outs, books) := scanLoop env.scanErr 0 delivered []
    let outErr : List Resp :=
      if env.iterErr.isSome then [⟨500, .error "Row iteration error!"⟩] else []
    ⟨outs ++ outErr ++ [⟨200, .books books⟩], db, [.selectAll]⟩

/-- Step 1 of `UpdateBook` (lines 182-194). -/
def updateCheck (f : Fault) (db : Db) (id : Int) (book : Book) : Option Resp :=
  match runRead f (.ok (db.titleExistsOther book.TitleName id)) with
  | .error _ => some ⟨500, .error "Failed to check title duplication!"⟩
  | .ok found =>
    if found then some ⟨409, .error "Another book with the same title already exists!"⟩
    else none

/-- Step 2 of `UpdateBook` (lines 196-205). -/
def updateWrite (f : Fault) (db : Db) (id : Int) (book : Book) : Resp × Db :=
  match runWrite f db db
      (db.update book.TitleName book.AuthorName book.PublishedAt.date id) with
  | (.error _, db1) => (⟨500, .error "Failed to update book!"⟩, db1)
  | (.ok updatedID, db1) => (⟨200, .updated "Book updated successfully" updatedID⟩, db1)

/-- Handler `UpdateBook`; `id` is the route parameter.  An id outside `integer`,
which the engine refuses in the check query already, is a fault of that query
(`env.first`). -/
def UpdateBook (env : Env) (db : Db) (id : Int) (body : Option Payload) : Result :=
  match ShouldBindJSON body with
  | none => ⟨[⟨400, .error "Invalid input!"⟩], db, []⟩
  | some book =>
    match updateCheck env.first db id book with
    | some r => ⟨[r], db, [.selectExistsTitleOtherId]⟩
    | none =>
      let (r, db1) := updateWrite env.second db id book
      ⟨[r], db1, [.selectExistsTitleOtherId, .updateReturningId]⟩

/-- Handler `DeleteBook`; `id` is the route parameter. -/
def DeleteBook (env : Env) (db : Db) (id : Int) : Result :=
  match runRead env.first (db.idExists id) with
  | .error _ => ⟨[⟨500, .error "Failed to check book existence!"⟩], db, [.selectExistsId]⟩
  | .ok found =>
    if !found then ⟨[⟨404, .error "Book not found!"⟩], db, [.selectExistsId]⟩
    else
      match runWrite env.second db db (Except.ok (), db.delete id) with
      | (.error _, db1) =>
        ⟨[⟨500, .error "Failed to delete book!"⟩], db1, [.selectExistsId, .deleteById]⟩
      | (.ok _, db1) =>
        ⟨[⟨200, .message "Book deleted successfully"⟩], db1, [.selectExistsId, .deleteById]⟩

/-! ## Concurrent `CreateBook` calls -/

/-- Where one `CreateBook` call on a bound book stands: about to send the check
of step 1 (`start`), past the check with the title reported absent and about
to send the insert of step 2 (`checked`), or returned with its answer. -/
inductive CreatePc
  | start
  | checked
  | done (r : Resp)
deriving DecidableEq, Repr

/-- Concurrent `CreateBook` calls: the table they share and where each call stands. -/
structure Conc where
  db : Db
  pc : Nat → CreatePc

/-- All calls bound and about to start on the table `db`. -/
def concInit (db : Db) : Conc := ⟨db, fun _ => .start⟩

/-- Call `e.1` (with the bound book `books e.1`) sends its next statement, which
the engine treats as `e.2`; a statement is one indivisible step on the table. -/
def concStep (books : Nat → Book) (s : Conc) (e : Nat × Fault) : Conc :=
  match s.pc e.1 with
  | .start =>
    match createCheck e.2 s.db (books e.1) with
    | some r => ⟨s.db, Function.update s.pc e.1 (.done r)⟩
    | none => ⟨s.db, Function.update s.pc e.1 .checked⟩
  | .checked =>
    let (r, db1) := createInsert e.2 s.db (books e.1)
    ⟨db1, Function.update s.pc e.1 (.done r)⟩
  | .done _ => s

/-- The state after the statements are sent in the order of the schedule. -/
def concRun (books : Nat → Book) (s : Conc) (sched : List (Nat × Fault)) : Conc :=
  sched.foldl (concStep books) s

/-- The 500 answer of `CreateBook` after a failed insert. -/
def failed500 : Resp := ⟨500, .error "Failed to create book!"⟩

/-- One request to the service, with what the engine does to its statements. -/
inductive Call
  | create (env : Env) (body : Option Payload)
  | getOne (f : Fault) (id : Int)
  | getAll (env : RowsEnv)
  | update (env : Env) (id : Int) (body : Option Payload)
  | delete (env : Env) (id : Int)

/-- The handler a request is routed to, run on the table `db`. -/
def Call.run (db : Db) : Call → Result
  | .create env body => CreateBook env db body
  | .getOne f id => GetBookById f db id
  | .getAll env => GetBooks env db
  | .update env id body => UpdateBook env db id body
  | .delete env id => DeleteBook env db id

/-- The table after a sequence of requests served one after the other. -/
def runCalls (db : Db) (cs : List Call) : Db :=
  cs.foldl (fun d c => (c.run d).db) db

/-- The constraints of the table: `PRIMARY KEY` on `id`, `UNIQUE` on
`title_name`, every id was drawn from the sequence, and `title_name` and
`author_name` are values of `VARCHAR(255)`. -/
def Db.WF (db : Db) : Prop :=
  db.rows.Pairwise (fun a b => a.id ≠ b.id ∧ a.title_name ≠ b.title_name) ∧
  (∀ r ∈ db.rows, r.id < db.serial) ∧
  ∀ r ∈ db.rows, r.title_name.length ≤ 255 ∧ r.author_name.length ≤ 255

instance (db : Db) : Decidable db.WF := by
  unfold Db.WF
  infer_instance

/-- Payload of `Create("A","X",2020-01-01)`. -/
def payloadAX : Payload := ⟨none, some "A", some "X", some ⟨⟨2020, 1, 1⟩, 0, 0⟩⟩

/-- Payload of `Create("A","Y",2021-01-01)`. -/
def payloadAY : Payload := ⟨none, some "A", some "Y", some ⟨⟨2021, 1, 1⟩, 0, 0⟩⟩

/-- Payload of the round trip: Dune, Herbert, 1965-08-01. -/
def payloadDune : Payload := ⟨none, some "Dune", some "Herbert", some ⟨⟨1965, 8, 1⟩, 0, 0⟩⟩

/-- Payload without the key `published_at`. -/
def payloadNoDate : Payload := ⟨none, some "A", some "X", none⟩

/-- Payload without the key `title_name`. -/
def payloadNoTitle : Payload := ⟨none, none, some "X", some ⟨⟨2020, 1, 1⟩, 0, 0⟩⟩

/-- The table after `Create("A","X",2020-01-01)` on the empty table. -/
def dbA : Db := ⟨[⟨1, "A", "X", ⟨2020, 1, 1⟩⟩], 2⟩

/-- The table holding the books "A" (id 1) and "B" (id 2). -/
def dbAB : Db := ⟨[⟨1, "A", "X", ⟨2020, 1, 1⟩⟩, ⟨2, "B", "Z", ⟨2022, 2, 2⟩⟩], 3⟩

/-- Two (or more) calls that carry the title "A" with different authors. -/
def booksA : Nat → Book :=
  fun i => ⟨0, "A", if i = 0 then "X" else "Y", ⟨⟨2020, 1, 1⟩, 0, 0⟩⟩

/-- Call 1 has checked, call 0 has checked and inserted. -/
def schedRacePrefix : List (Nat × Fault) :=
  [(1, Fault.ok), (0, Fault.ok), (0, Fault.ok)]

/-! ## Facts about the statements -/

theorem titleExists_iff (db : Db) (t : String) :
    db.titleExists t = true ↔ ∃ r ∈ db.rows, r.title_name = t := by
  simp [Db.titleExists]

theorem titleExistsOther_iff (db : Db) (t : String) (id : Int) :
    db.titleExistsOther t id = true ↔ ∃ r ∈ db.rows, r.title_name = t ∧ r.id ≠ id := by
  simp [Db.titleExistsOther]

theorem hasId_iff (db : Db) (id : Int) :
    db.hasId id = true ↔ ∃ r ∈ db.rows, r.id = id := by
  simp [Db.hasId]

theorem varchar255_length {s t : String} (h : varchar255 s = some t) : t.length ≤ 255 := by
  unfold varchar255 at h
  split at h
  · rename_i hle
    simp only [Option.some.injEq] at h
    subst h
    exact hle
  · split at h
    · simp only [Option.some.injEq] at h
      subst h
      show (s.data.take 255).length ≤ 255
      simp
    · simp at h

theorem hasId_serial_of_wf {db : Db} (h : db.WF) : db.hasId db.serial = false := by
  cases hx : db.hasId db.serial
  · rfl
  · obtain ⟨r, hr, hid⟩ := (hasId_iff db db.serial).1 hx
    have := h.2.1 r hr
    omega

theorem wf_emptyDb : emptyDb.WF := by
  simp [Db.WF, emptyDb]

theorem wf_bump {db : Db} (h : db.WF) : ({ db with serial := db.serial + 1 } : Db).WF := by
  refine ⟨h.1, ?_, h.2.2⟩
  intro r hr
  have := h.2.1 r hr
  show r.id < db.serial + 1
  omega

theorem wf_append {db : Db} (h : db.WF) {t a : String} (d : Date)
    (ht : db.titleExists t = false) (hlt : t.length ≤ 255) (hla : a.length ≤ 255) :
    (⟨db.rows ++ [⟨db.serial, t, a, d⟩], db.serial + 1⟩ : Db).WF := by
  have hno : ∀ r ∈ db.rows, r.title_name ≠ t := by
    intro r hr heq
    have : db.titleExists t = true := (titleExists_iff db t).2 ⟨r, hr, heq⟩
    simp [ht] at this
  refine ⟨?_, ?_, ?_⟩
  · show (db.rows ++ [(⟨db.serial, t, a, d⟩ : Row)]).Pairwise _
    rw [List.pairwise_append]
    refine ⟨h.1, by simp, ?_⟩
    intro x hx y hy
    simp only [List.mem_singleton] at hy
    subst hy
    refine ⟨?_, hno x hx⟩
    have := h.2.1 x hx
    show x.id ≠ db.serial
    omega
  · intro r hr
    have hr' : r ∈ db.rows ++ [(⟨db.serial, t, a, d⟩ : Row)] := hr
    simp only [List.mem_append, List.mem_singleton] at hr'
    rcases hr' with hr' | hr'
    · have := h.2.1 r hr'
      show r.id < db.serial + 1
      omega
    · subst hr'
      show db.serial < db.serial + 1
      omega
  · intro r hr
    have hr' : r ∈ db.rows ++ [(⟨db.serial, t, a, d⟩ : Row)] := hr
    simp only [List.mem_append, List.mem_singleton] at hr'
    rcases hr' with hr' | hr'
    · exact h.2.2 r hr'
    · subst hr'
      exact ⟨hlt, hla⟩

theorem wf_insert {db : Db} (h : db.WF) (t a : String) (d : Date) :
    (db.insert t a d).2.WF := by
  unfold Db.insert
  split
  · rename_i t1 a1 ht1 ha1
    cases hseq : int4 db.serial
    · simpa using h
    · simp only [Bool.not_true, Bool.false_eq_true, if_false, hasId_serial_of_wf h]
      cases ht : db.titleExists t1
      · simpa using wf_append h d ht (varchar255_length ht1) (varchar255_length ha1)
      · simpa using wf_bump h
  · exact h

theorem wf_map_update {db : Db} (h : db.WF) {t a : String} (d : Date) {id : Int}
    (ht : db.titleExistsOther t id = false) (hlt : t.length ≤ 255) (hla : a.length ≤ 255) :
    ({ db with rows := db.rows.map fun r =>
        if r.id == id then ⟨r.id, t, a, d⟩ else r } : Db).WF := by
  have hno : ∀ r ∈ db.rows, r.id ≠ id → r.title_name ≠ t := by
    intro r hr hne heq
    have : db.titleExistsOther t id = true :=
      (titleExistsOther_iff db t id).2 ⟨r, hr, heq, hne⟩
    simp [ht] at this
  refine ⟨?_, ?_, ?_⟩
  · show (db.rows.map _).Pairwise _
    rw [List.pairwise_map]
    refine h.1.imp_of_mem ?_
    intro x y hx hy hxy
    by_cases hxi : x.id = id <;> by_cases hyi : y.id = id
    · exact absurd (hxi.trans hyi.symm) hxy.1
    · simp only [hxi, hyi, beq_self_eq_true, if_true, beq_iff_eq, if_false]
      exact ⟨fun e => hyi e.symm, fun e => hno y hy hyi e.symm⟩
    · simp only [hxi, hyi, beq_self_eq_true, if_true, beq_iff_eq, if_false]
      exact ⟨hxi, hno x hx hxi⟩
    · simp only [hxi, hyi, beq_iff_eq, if_false]
      exact hxy
  · intro r hr
    have hr' : r ∈ db.rows.map fun r => if r.id == id then (⟨r.id, t, a, d⟩ : Row) else r := hr
    simp only [List.mem_map] at hr'
    obtain ⟨x, hx, rfl⟩ := hr'
    have := h.2.1 x hx
    split <;> simpa using this
  · intro r hr
    have hr' : r ∈ db.rows.map fun r => if r.id == id then (⟨r.id, t, a, d⟩ : Row) else r := hr
    simp only [List.mem_map] at hr'
    obtain ⟨x, hx, rfl⟩ := hr'
    split
    · exact ⟨hlt, hla⟩
    · exact h.2.2 x hx

theorem wf_update {db : Db} (h : db.WF) (t a : String) (d : Date) (id : Int) :
    (db.update t a d id).2.WF := by
  unfold Db.update
  cases hid : db.hasId id
  · simpa using h
  · simp only [Bool.not_true, Bool.false_eq_true, if_false]
    split
    · rename_i t1 a1 ht1 ha1
      cases ht : db.titleExistsOther t1 id
      · simpa using wf_map_update h d ht (varchar255_length ht1) (varchar255_length ha1)
      · simpa using h
    · exact h

theorem wf_delete {db : Db} (h : db.WF) (id : Int) : (db.delete id).WF := by
  refine ⟨h.1.filter _, ?_, ?_⟩
  · intro r hr
    exact h.2.1 r (List.mem_filter.1 hr).1
  · intro r hr
    exact h.2.2 r (List.mem_filter.1 hr).1

theorem wf_runWrite {α : Type} {db mid : Db} (f : Fault) (r : Except SqlError α × Db)
    (h : db.WF) (hmid : mid.WF) (hr : r.2.WF) : (runWrite f db mid r).2.WF := by
  cases f <;> simpa [runWrite]

theorem wf_createInsert {db : Db} (h : db.WF) (f : Fault) (book : Book) :
    (createInsert f db book).2.WF := by
  have hw := wf_runWrite f (db.insert book.TitleName book.AuthorName book.PublishedAt.date) h
    (wf_bump h) (wf_insert h _ _ _)
  unfold createInsert
  split <;> simp_all

theorem wf_updateWrite {db : Db} (h : db.WF) (f : Fault) (id : Int) (book : Book) :
    (updateWrite f db id book).2.WF := by
  have hw := wf_runWrite f (db.update book.TitleName book.AuthorName book.PublishedAt.date id) h
    h (wf_update h _ _ _ _)
  unfold updateWrite
  split <;> simp_all

theorem wf_run {db : Db} (h : db.WF) (c : Call) : (c.run db).db.WF := by
  cases c with
  | create env body =>
    simp only [Call.run, CreateBook]
    split
    · exact h
    · split
      · exact h
      · exact wf_createInsert h _ _
  | getOne f id =>
    simp only [Call.run, GetBookById]
    split <;> exact h
  | getAll env =>
    simp only [Call.run, GetBooks]
    split <;> exact h
  | update env id body =>
    simp only [Call.run, UpdateBook]
    split
    · exact h
    · split
      · exact h
      · exact wf_updateWrite h _ _ _
  | delete env id =>
    simp only [Call.run, DeleteBook]
    split
    · exact h
    · split
      · exact h
      · have hw := wf_runWrite env.second (Except.ok (), db.delete id) h h (wf_delete h id)
        split <;> simp_all

theorem wf_runCalls {db : Db} (h : db.WF) (cs : List Call) : (runCalls db cs).WF := by
  induction cs generalizing db with
  | nil => exact h
  | cons c cs ih => exact ih (wf_run h c)

theorem hasId_false_of_missing {db : Db} {id : Int} (h : ∀ r ∈ db.rows, r.id ≠ id) :
    db.hasId id = false := by
  cases hx : db.hasId id
  · rfl
  · obtain ⟨r, hr, hid⟩ := (hasId_iff db id).1 hx
    exact absurd hid (h r hr)

theorem find_none_of_missing {db : Db} {id : Int} (h : ∀ r ∈ db.rows, r.id ≠ id) :
    db.rows.find? (fun r => r.id == id) = none := by
  simp only [List.find?_eq_none]
  intro r hr
  simpa using h r hr

theorem titleExistsOther_false_of_free {db : Db} {t : String} {id : Int}
    (h : ∀ r ∈ db.rows, r.id ≠ id → r.title_name ≠ t) : db.titleExistsOther t id = false := by
  cases hx : db.titleExistsOther t id
  · rfl
  · obtain ⟨r, hr, ht, hid⟩ := (titleExistsOther_iff db t id).1 hx
    exact absurd ht (h r hr hid)

theorem int4_iff (n : Int) : int4 n = true ↔ -2147483648 ≤ n ∧ n ≤ 2147483647 := by
  simp [int4]

theorem insert_error_rows (db : Db) (t a : String) (d : Date) (e : SqlError)
    (h : (db.insert t a d).1 = Except.error e) : (db.insert t a d).2.rows = db.rows := by
  unfold Db.insert at h ⊢
  split
  · rename_i t1 a1 ht ha
    simp only [ht, ha] at h
    cases hseq : int4 db.serial
    · simp
    · cases hid : db.hasId db.serial
      · cases hte : db.titleExists t1
        · simp [hseq, hid, hte] at h
        · simp [hid, hte]
      · simp [hid]
  · rfl

theorem createInsert_ok_of_error {db : Db} {b : Book} {e : SqlError}
    (h : (db.insert b.TitleName b.AuthorName b.PublishedAt.date).1 = Except.error e) :
    createInsert Fault.ok db b =
      (failed500, (db.insert b.TitleName b.AuthorName b.PublishedAt.date).2) := by
  simp only [createInsert, runWrite]
  generalize db.insert b.TitleName b.AuthorName b.PublishedAt.date = r at h
  obtain ⟨r1, r2⟩ := r
  simp only at h
  subst h
  simp [failed500]

/-! ## Concurrent creates: facts -/

/-- A `CreateBook` call on its own is its two steps one after the other. -/
theorem createBook_eq_two_steps (env : Env) (db : Db) (body : Option Payload) (book : Book)
    (hvalid : ShouldBindJSON body = some book) :
    ∃ r, (concRun (fun _ => book) (concInit db) [(0, env.first), (0, env.second)]).pc 0 =
        .done r ∧
      (CreateBook env db body).out = [r] ∧
      (concRun (fun _ => book) (concInit db) [(0, env.first), (0, env.second)]).db =
        (CreateBook env db body).db := by
  simp only [concRun, List.foldl, concStep, concInit, CreateBook, hvalid]
  cases hc : createCheck env.first db book with
  | some r => exact ⟨r, by simp, rfl, rfl⟩
  | none => exact ⟨_, by simp, rfl, rfl⟩

/-- C1: for every table and every payload that binds, if some row already holds
exactly the payload's title then `CreateBook` leaves the table as it was,
whatever the engine does, and, the engine answering the check, it answers 409
Conflict after the check alone; author and publication date play no part. -/
theorem createBook_existing_title_conflict (env : Env) (db : Db) (body : Option Payload)
    (book : Book) (hvalid : ShouldBindJSON body = some book)
    (hdup : ∃ r ∈ db.rows, r.title_name = book.TitleName) :
    (CreateBook env db body).db = db ∧
    (env.first = Fault.ok → CreateBook env db body =
      ⟨[⟨409, .error "Book with the same title already exists!"⟩], db, [.selectExistsTitle]⟩) := by
  have hex : db.titleExists book.TitleName = true := (titleExists_iff _ _).2 hdup
  rcases env with ⟨f1, f2⟩
  cases f1 <;> simp [CreateBook, hvalid, createCheck, runRead, hex]

/-- Witness of C1 on the scenario Create("A","X",2020-01-01) then
Create("A","Y",2021-01-01): the second call answers 409, the table keeps the
single row titled "A", and `GetBooks` afterwards returns that one book. -/
theorem createBook_existing_title_conflict_witness :
    (CreateBook Env.ok emptyDb (some payloadAX)).db = dbA ∧
    ShouldBindJSON (some payloadAY) = some ⟨0, "A", "Y", ⟨⟨2021, 1, 1⟩, 0, 0⟩⟩ ∧
    (∃ r ∈ dbA.rows, r.title_name = "A") ∧
    (GetBooks RowsEnv.ok (CreateBook Env.ok dbA (some payloadAY)).db).out =
      [⟨200, .books [⟨1, "A", "X", ⟨⟨2020, 1, 1⟩, 0, 0⟩⟩]⟩] ∧
    ((CreateBook Env.ok dbA (some payloadAY)).db = dbA ∧
    (Env.ok.first = Fault.ok → CreateBook Env.ok dbA (some payloadAY) =
      ⟨[⟨409, .error "Book with the same title already exists!"⟩], dbA,
        [.selectExistsTitle]⟩)) :=
  ⟨by decide, by decide, by decide, by decide,
    createBook_existing_title_conflict Env.ok dbA (some payloadAY)
      ⟨0, "A", "Y", ⟨⟨2021, 1, 1⟩, 0, 0⟩⟩ (by decide) (by decide)⟩

/-- C2: in every table reached from the empty table by a finite sequence of
CreateBook, GetBookById, GetBooks, UpdateBook and DeleteBook calls, with any
payloads, ids and engine faults, two rows with different ids never have the
same title; indeed any two rows differ in id and in title. -/
theorem title_unique_in_every_reachable_store (cs : List Call) :
    (∀ r1 ∈ (runCalls emptyDb cs).rows, ∀ r2 ∈ (runCalls emptyDb cs).rows,
      r1.id ≠ r2.id → r1.title_name ≠ r2.title_name) ∧
    (runCalls emptyDb cs).rows.Pairwise
      (fun a b => a.id ≠ b.id ∧ a.title_name ≠ b.title_name) := by
  have hwf := wf_runCalls wf_emptyDb cs
  refine ⟨?_, hwf.1⟩
  intro r1 h1 r2 h2 hne
  have hsym : Symmetric (fun a b : Row => a.id ≠ b.id ∧ a.title_name ≠ b.title_name) :=
    fun a b h => ⟨fun e => h.1 e.symm, fun e => h.2 e.symm⟩
  have := hwf.1.forall hsym h1 h2 (fun e => hne (by rw [e]))
  exact this.2

/-- C5, refuted as stated: 2147483648 is an integer that no row of the table
holding the books 1 and 2 carries, and it is no value of the column type
`integer`: the engine refuses the parameter, `GetBookById` answers 500
"Failed to get book!" and `DeleteBook` answers 500 "Failed to check book
existence!", not 404. -/
theorem id_beyond_integer_answers_500 :
    (∀ r ∈ dbAB.rows, r.id ≠ 2147483648) ∧
    GetBookById Fault.ok dbAB 2147483648 =
      ⟨[⟨500, .error "Failed to get book!"⟩], dbAB, [.selectById]⟩ ∧
    DeleteBook Env.ok dbAB 2147483648 =
      ⟨[⟨500, .error "Failed to check book existence!"⟩], dbAB, [.selectExistsId]⟩ := by
  decide

/-- C5, amended: for every table and every id that no row carries, `GetBookById`
and `DeleteBook` never answer 200 and leave the table as it was, whatever the
engine does; when the id is a value of `integer` (from -2147483648 to
2147483647) and the engine answers, both answer 404 "Book not found!", so no
zero-valued book is returned and nothing is deleted. -/
theorem missing_id_is_not_found (f : Fault) (env : Env) (db : Db) (id : Int)
    (hmiss : ∀ r ∈ db.rows, r.id ≠ id) :
    (f = Fault.ok → -2147483648 ≤ id → id ≤ 2147483647 → GetBookById f db id =
      ⟨[⟨404, .error "Book not found!"⟩], db, [.selectById]⟩) ∧
    (∀ r ∈ (GetBookById f db id).out, r.status ≠ 200) ∧
    (GetBookById f db id).db = db ∧
    (env.first = Fault.ok → -2147483648 ≤ id → id ≤ 2147483647 → DeleteBook env db id =
      ⟨[⟨404, .error "Book not found!"⟩], db, [.selectExistsId]⟩) ∧
    (∀ r ∈ (DeleteBook env db id).out, r.status ≠ 200) ∧
    (DeleteBook env db id).db = db := by
  have hsel := find_none_of_missing hmiss
  have hid := hasId_false_of_missing hmiss
  rcases env with ⟨f1, f2⟩
  refine ⟨?_, ?_, ?_, ?_, ?_, ?_⟩
  · intro hf hlo hhi
    subst hf
    have hr : int4 id = true := (int4_iff id).2 ⟨hlo, hhi⟩
    simp [GetBookById, runRead, Db.selectById, hr, hsel]
  · cases hr : int4 id <;> cases f <;> simp [GetBookById, runRead, Db.selectById, hr, hsel]
  · cases hr : int4 id <;> cases f <;> simp [GetBookById, runRead, Db.selectById, hr, hsel]
  · intro hf hlo hhi
    simp only at hf
    subst hf
    have hr : int4 id = true := (int4_iff id).2 ⟨hlo, hhi⟩
    simp [DeleteBook, runRead, Db.idExists, hr, hid]
  · cases hr : int4 id <;> cases f1 <;> simp [DeleteBook, runRead, Db.idExists, hr, hid]
  · cases hr : int4 id <;> cases f1 <;> simp [DeleteBook, runRead, Db.idExists, hr, hid]

/-- Witness of C5 (amended): id 7 in the table holding the books 1 and 2. -/
theorem missing_id_is_not_found_witness :
    (∀ r ∈ dbAB.rows, r.id ≠ 7) ∧
    GetBookById Fault.ok dbAB 7 = ⟨[⟨404, .error "Book not found!"⟩], dbAB, [.selectById]⟩ ∧
    DeleteBook Env.ok dbAB 7 =
      ⟨[⟨404, .error "Book not found!"⟩], dbAB, [.selectExistsId]⟩ :=
  ⟨by decide,
    (missing_id_is_not_found Fault.ok Env.ok dbAB 7 (by decide)).1 rfl (by decide) (by decide),
    (missing_id_is_not_found Fault.ok Env.ok dbAB 7 (by decide)).2.2.2.1 rfl
      (by decide) (by decide)⟩

/-- C8, refuted as stated: a payload without `published_at` binds (the field has
no `binding:"required"` tag); on the empty table `CreateBook` queries the
table, inserts the book with the zero time and answers 201, and `UpdateBook`
of book 1 with it queries the table, rewrites the row and answers 200. -/
theorem missing_publishedAt_is_accepted :
    payloadNoDate.published_at = none ∧
    CreateBook Env.ok emptyDb (some payloadNoDate) =
      ⟨[⟨201, .book ⟨1, "A", "X", zeroTime⟩⟩], ⟨[⟨1, "A", "X", ⟨1, 1, 1⟩⟩], 2⟩,
        [.selectExistsTitle, .insertReturningId]⟩ ∧
    UpdateBook Env.ok dbA 1 (some payloadNoDate) =
      ⟨[⟨200, .updated "Book updated successfully" 1⟩], ⟨[⟨1, "A", "X", ⟨1, 1, 1⟩⟩], 2⟩,
        [.selectExistsTitleOtherId, .updateReturningId]⟩ := by
  decide

/-- C8, amended: every payload in which `title_name` or `author_name` is absent
or the empty string is refused by `CreateBook` and by `UpdateBook` with 400
"Invalid input!" before any statement is sent: the table is neither queried
nor changed, whatever the engine would do. -/
theorem missing_title_or_author_is_rejected (env : Env) (db : Db) (id : Int) (p : Payload)
    (hbad : p.title_name = none ∨ p.title_name = some "" ∨
      p.author_name = none ∨ p.author_name = some "") :
    CreateBook env db (some p) = ⟨[⟨400, .error "Invalid input!"⟩], db, []⟩ ∧
    UpdateBook env db id (some p) = ⟨[⟨400, .error "Invalid input!"⟩], db, []⟩ := by
  have hb : ShouldBindJSON (some p) = none := by
    rcases hbad with h | h | h | h <;> simp [ShouldBindJSON, h]
  simp [CreateBook, UpdateBook, hb]

/-- Witness of C8 (amended): a payload without `title_name`. -/
theorem missing_title_or_author_is_rejected_witness :
    payloadNoTitle.title_name = none ∧
    CreateBook Env.ok dbA (some payloadNoTitle) = ⟨[⟨400, .error "Invalid input!"⟩], dbA, []⟩ ∧
    UpdateBook Env.ok dbA 1 (some payloadNoTitle) =
      ⟨[⟨400, .error "Invalid input!"⟩], dbA, []⟩ :=
  ⟨rfl, missing_title_or_author_is_rejected Env.ok dbA 1 payloadNoTitle (Or.inl rfl)⟩

/-- C9: for every table, every id no row carries and every payload that binds
with a title no row holds, the statement `UPDATE .. RETURNING id` touches no
row and gives `sql.ErrNoRows`; `UpdateBook` leaves the table as it was and
answers a single 500 whatever the engine does, and, the engine answering, it
answers 500 "Failed to update book!" after both statements. -/
theorem updateBook_missing_id_fails (env : Env) (db : Db) (id : Int) (body : Option Payload)
    (book : Book) (hvalid : ShouldBindJSON body = some book)
    (hmiss : ∀ r ∈ db.rows, r.id ≠ id)
    (hfree : ∀ r ∈ db.rows, r.title_name ≠ book.TitleName) :
    db.update book.TitleName book.AuthorName book.PublishedAt.date id =
      (Except.error SqlError.errNoRows, db) ∧
    (UpdateBook env db id body).db = db ∧
    (∃ msg, (UpdateBook env db id body).out = [⟨500, .error msg⟩]) ∧
    (env = Env.ok → UpdateBook env db id body =
      ⟨[⟨500, .error "Failed to update book!"⟩], db,
        [.selectExistsTitleOtherId, .updateReturningId]⟩) := by
  have hid := hasId_false_of_missing hmiss
  have hex : db.titleExistsOther book.TitleName id = false :=
    titleExistsOther_false_of_free (fun r hr _ => hfree r hr)
  have hup : db.update book.TitleName book.AuthorName book.PublishedAt.date id =
      (Except.error SqlError.errNoRows, db) := by
    simp [Db.update, hid]
  rcases env with ⟨f1, f2⟩
  refine ⟨hup, ?_, ?_, ?_⟩
  · cases f1 <;> cases f2 <;>
      simp [UpdateBook, hvalid, updateCheck, updateWrite, runRead, runWrite, hex, hup]
  · cases f1 <;> cases f2 <;>
      simp [UpdateBook, hvalid, updateCheck, updateWrite, runRead, runWrite, hex, hup]
  · intro he
    simp only [Env.ok, Env.mk.injEq] at he
    obtain ⟨h1, h2⟩ := he
    subst h1 h2
    simp [UpdateBook, hvalid, updateCheck, updateWrite, runRead, runWrite, hex, hup]

/-- Witness of C9: updating id 7 to the new title "Dune" in the table holding
the books 1 and 2. -/
theorem updateBook_missing_id_fails_witness :
    (∀ r ∈ dbAB.rows, r.id ≠ 7) ∧ (∀ r ∈ dbAB.rows, r.title_name ≠ "Dune") ∧
    dbAB.update "Dune" "Herbert" ⟨1965, 8, 1⟩ 7 = (Except.error SqlError.errNoRows, dbAB) ∧
    (UpdateBook Env.ok dbAB 7 (some payloadDune)).db = dbAB ∧
    (∃ msg, (UpdateBook Env.ok dbAB 7 (some payloadDune)).out = [⟨500, .error msg⟩]) ∧
    (Env.ok = Env.ok → UpdateBook Env.ok dbAB 7 (some payloadDune) =
      ⟨[⟨500, .error "Failed to update book!"⟩], dbAB,
        [.selectExistsTitleOtherId, .updateReturningId]⟩) :=
  ⟨by decide, by decide,
    updateBook_missing_id_fails Env.ok dbAB 7 (some payloadDune)
      ⟨0, "Dune", "Herbert", ⟨⟨1965, 8, 1⟩, 0, 0⟩⟩ (by decide) (by decide) (by decide)⟩

/-- C3, refuted as stated: on the empty table the check of a call for the title
"A" reports the title absent; another call inserts "A"; the insert of the
first call is then refused by `UNIQUE`, and the call answers 500 "Failed to
create book!", not 409. -/
theorem insert_refused_by_unique_answers_500 :
    createCheck Fault.ok emptyDb ⟨0, "A", "Y", ⟨⟨2021, 1, 1⟩, 0, 0⟩⟩ = none ∧
    (CreateBook Env.ok emptyDb (some payloadAX)).db = dbA ∧
    dbA.insert "A" "Y" ⟨2021, 1, 1⟩ = (Except.error SqlError.uniqueViolation, ⟨dbA.rows, 3⟩) ∧
    createInsert Fault.ok dbA ⟨0, "A", "Y", ⟨⟨2021, 1, 1⟩, 0, 0⟩⟩ =
      (⟨500, .error "Failed to create book!"⟩, ⟨dbA.rows, 3⟩) ∧
    (createInsert Fault.ok dbA ⟨0, "A", "Y", ⟨⟨2021, 1, 1⟩, 0, 0⟩⟩).1.status ≠ 409 :=
  ⟨by decide, by decide, rfl, by decide, by decide⟩

/-- C3, amended: when a `CreateBook` call is past its check with the title
reported absent and its insert is then refused by the uniqueness constraint,
the call answers 500 "Failed to create book!" (a generic failure, not 409)
and no row is added. -/
theorem insert_unique_violation_is_generic_failure (books : Nat → Book) (s : Conc) (i : Nat)
    (hpc : s.pc i = CreatePc.checked)
    (hrej : (s.db.insert (books i).TitleName (books i).AuthorName
      (books i).PublishedAt.date).1 = Except.error SqlError.uniqueViolation) :
    (concStep books s (i, Fault.ok)).pc i =
      CreatePc.done ⟨500, .error "Failed to create book!"⟩ ∧
    (concStep books s (i, Fault.ok)).db.rows = s.db.rows := by
  have hins := createInsert_ok_of_error hrej
  have hrows := insert_error_rows _ _ _ _ _ hrej
  simp only [concStep, hpc, hins]
  exact ⟨by simp [failed500], hrows⟩

/-- Witness of C3 (amended): call 1 has checked on the empty table, call 0 has
checked and inserted "A"; the insert of call 1 is refused and call 1 answers 500. -/
theorem insert_unique_violation_is_generic_failure_witness :
    (concRun booksA (concInit emptyDb) schedRacePrefix).pc 1 = CreatePc.checked ∧
    (concStep booksA (concRun booksA (concInit emptyDb) schedRacePrefix) (1, Fault.ok)).pc 1 =
      CreatePc.done ⟨500, .error "Failed to create book!"⟩ ∧
    (concStep booksA (concRun booksA (concInit emptyDb) schedRacePrefix) (1, Fault.ok)).db.rows =
      (concRun booksA (concInit emptyDb) schedRacePrefix).db.rows :=
  ⟨by decide,
    insert_unique_violation_is_generic_failure booksA
      (concRun booksA (concInit emptyDb) schedRacePrefix) 1 (by decide) rfl⟩

/-- C6, the code at the failing inputs: on the table holding the books 1 and 2,
when the iteration breaks off with an error after the first row `GetBooks`
calls `c.JSON(500, ..)` and then `c.JSON(200, ..)` with the one book read so
far; when the scan of the first row fails at its last column it calls
`c.JSON(500, ..)` and then `c.JSON(200, ..)` with that book half filled. -/
theorem getBooks_goes_on_to_200_after_failure :
    GetBooks ⟨Fault.ok, fun _ => none, some 1⟩ dbAB =
      ⟨[⟨500, .error "Row iteration error!"⟩,
        ⟨200, .books [⟨1, "A", "X", ⟨⟨2020, 1, 1⟩, 0, 0⟩⟩]⟩], dbAB, [.selectAll]⟩ ∧
    GetBooks ⟨Fault.ok, fun i => if i = 0 then some 3 else none, none⟩ dbAB =
      ⟨[⟨500, .error "Failed to scan book!"⟩,
        ⟨200, .books [⟨1, "A", "X", zeroTime⟩, ⟨2, "B", "Z", ⟨⟨2022, 2, 2⟩, 0, 0⟩⟩]⟩],
        dbAB, [.selectAll]⟩ := by
  decide

end BookStore
